import Mathlib

/-!
Verification of the Luminosity synthetic-school-data generators.

This file gives a shallow embedding, over exact rational arithmetic, of the
grade, attendance, calendar, student-registry, teacher-registry and
guardian-registry logic of `scripts/complete_decade_generator.py` (and the
identical copies in `scripts/decade_generator.py` /
`scripts/grade_distribution_hotfix.py`), and proves or refutes the frozen
claims about them.

Randomness is modelled by passing the values produced by the random calls
as explicit arguments: a call `random.uniform(a, b)` is modelled as
`a + (b - a) * u` for a unit draw `u` with `0 ≤ u ≤ 1`, a call
`np.random.normal(mu, sigma)` as `mu + sigma * z` for a standard-normal
draw `z`, a call `random.sample(pop, k)` as a list that is a `k`-element
duplicate-free sublist of `pop`, and a call `random.choice l` as indexing
`l` by a draw of type `Fin l.length`.  Python floats are modelled by `ℚ`;
at the magnitudes appearing in these scripts (percentages, day counts up
to a few hundred) the float computations of the source and the exact
rational computations agree on every value the claims mention.
-/

namespace Luminosity

/-- Python's built-in `round` (round half to even, "banker's rounding"),
on exact rationals. -/
def pyRound (x : ℚ) : ℤ :=
  let f := ⌊x⌋
  if x - f < 1/2 then f
  else if x - f > 1/2 then f + 1
  else if f % 2 = 0 then f else f + 1

/-- `random.uniform a b` with unit draw `u`: Python computes
`a + (b - a) * random.random()`. -/
def uniformDraw (a b u : ℚ) : ℚ := a + (b - a) * u

/-- `np.random.normal mu sigma` with standard-normal draw `z`. -/
def normalDraw (mu sigma z : ℚ) : ℚ := mu + sigma * z

/-- The percentage drawn by `_generate_realistic_grade`
(`scripts/complete_decade_generator.py` lines 1394-1406, and the identical
`scripts/decade_generator.py` lines 908-921): three-branch mixture on the
branch selector `rand = random.random()`. -/
def realisticPercentage (rand u z : ℚ) : ℚ :=
  if rand < 3/100 then uniformDraw (95/100) 1 u
  else if rand < 8/100 then uniformDraw 0 (69/100) u
  else max (70/100) (min 1 (normalDraw (87/100) (8/100) z))

/-- `_generate_realistic_grade(points_possible)` of
`scripts/complete_decade_generator.py` (and `scripts/decade_generator.py`):
`max(0, min(points_possible, round(points_possible * percentage)))`. -/
def generate_realistic_grade (points_possible : ℤ) (rand u z : ℚ) : ℤ :=
  let percentage := realisticPercentage rand u z
  max 0 (min points_possible (pyRound (points_possible * percentage)))

/-- The score stated by the claim: `points_possible × percentage`, with the
percentage drawn from the three-branch mixture, rounded to an integer
number of points (no further clamping mentioned). -/
def claimedMixtureScore (points_possible : ℤ) (rand u z : ℚ) : ℤ :=
  pyRound (points_possible * realisticPercentage rand u z)

/-- The per-row score of `generate_proper_grades` in
`scripts/grade_distribution_hotfix.py` lines 145-161: the mixture works on
the 0-100 percent scale, the normal branch is `np.random.normal(85, 5)`
clamped to `[70, 94]`, and the score is
`max(0, min(points_possible, round((percentage / 100) * points_possible)))`. -/
def generate_proper_grade (points_possible : ℤ) (rand u z : ℚ) : ℤ :=
  let percentage :=
    if rand < 3/100 then uniformDraw 95 100 u
    else if rand < 8/100 then uniformDraw 0 69 u
    else max 70 (min 94 (normalDraw 85 5 z))
  max 0 (min points_possible (pyRound (percentage / 100 * points_possible)))

/-! ### School calendar (`_get_school_days`, `_is_holiday`)

`scripts/complete_decade_generator.py` lines 1704-1741.  Python `date`
values are modelled by year/month/day triples in the proleptic Gregorian
calendar, `date.weekday()` by the day number since 0001-01-01 (a Monday)
reduced mod 7, and `date.strftime` is dropped: the claims only concern
which dates are school days, not their textual form. -/

/-- A Python `datetime.date`. -/
structure PyDate where
  year : ℕ
  month : ℕ
  day : ℕ
deriving DecidableEq, Repr

/-- Gregorian leap year, as in Python's `calendar`/`datetime`. -/
def isLeap (y : ℕ) : Bool := (y % 4 == 0 && y % 100 != 0) || (y % 400 == 0)

/-- Length of month `m` of year `y`. -/
def daysInMonth (y m : ℕ) : ℕ :=
  if m = 2 then (if isLeap y then 29 else 28)
  else if m = 4 ∨ m = 6 ∨ m = 9 ∨ m = 11 then 30 else 31

/-- Days in year `y` strictly before month `m` (1-based month index). -/
def daysBeforeMonth (y m : ℕ) : ℕ :=
  [0, 0, 31, 59, 90, 120, 151, 181, 212, 243, 273, 304, 334].getD m 0 +
    (if isLeap y && decide (2 < m) then 1 else 0)

/-- Python's `date.toordinal`: day number with 0001-01-01 ↦ 1. -/
def toOrdinal (d : PyDate) : ℕ :=
  365 * (d.year - 1) + (d.year - 1) / 4 - (d.year - 1) / 100 + (d.year - 1) / 400
    + daysBeforeMonth d.year d.month + d.day

/-- Python's `date.weekday()`: Monday = 0 … Sunday = 6.  0001-01-01 was a
Monday, so this is `(toordinal + 6) % 7`. -/
def weekday (d : PyDate) : ℕ := (toOrdinal d + 6) % 7

/-- `current_date + timedelta(days=1)`. -/
def nextDate (d : PyDate) : PyDate :=
  if d.day < daysInMonth d.year d.month then ⟨d.year, d.month, d.day + 1⟩
  else if d.month < 12 then ⟨d.year, d.month + 1, 1⟩
  else ⟨d.year + 1, 1, 1⟩

/-- Date comparison `a <= b` (lexicographic on year, month, day). -/
def dateLe (a b : PyDate) : Bool :=
  decide (a.year < b.year) ||
    (a.year == b.year &&
      (decide (a.month < b.month) || (a.month == b.month && decide (a.day ≤ b.day))))

/-- `_is_holiday(check_date)` of `complete_decade_generator.py` lines
1721-1741: the three holiday ranges are built from `check_date.year`, so
(exactly as in the source) the winter-break range only matches its
December part and the spring-break range never matches a date of the
school year in question. -/
def is_holiday (d : PyDate) : Bool :=
  (dateLe ⟨d.year, 11, 25⟩ d && dateLe d ⟨d.year, 11, 29⟩) ||
  (dateLe ⟨d.year, 12, 23⟩ d && dateLe d ⟨d.year + 1, 1, 3⟩) ||
  (dateLe ⟨d.year + 1, 3, 15⟩ d && dateLe d ⟨d.year + 1, 3, 22⟩)

/-- The loop of `_get_school_days`:
`while current_date <= end_date and len(school_days) < 180`, appending
`current_date` when it is a weekday and not a holiday.  `n` carries
`len(school_days)` and the list is accumulated in reverse (reversed on
exit); the fuel bound 400 exceeds the 284/285 days of any
Aug-26 → Jun-6 range, so it is never what stops the loop. -/
def schoolDaysAux (last : PyDate) : ℕ → PyDate → ℕ → List PyDate → List PyDate
  | 0, _, _, acc => acc.reverse
  | fuel + 1, cur, n, acc =>
    if dateLe cur last && decide (n < 180) then
      if decide (weekday cur < 5) && !is_holiday cur then
        schoolDaysAux last fuel (nextDate cur) (n + 1) (cur :: acc)
      else
        schoolDaysAux last fuel (nextDate cur) n acc
    else acc.reverse

/-- `_get_school_days(year)`: school days from Aug 26 `year` to
Jun 6 `year+1`, capped at 180 days. -/
def get_school_days (year : ℕ) : List PyDate :=
  schoolDaysAux ⟨year + 1, 6, 6⟩ 400 ⟨year, 8, 26⟩ 0 []

/-- Injective numeric key of a date (months and days are < 100 on every
date the generator builds). -/
def dateKey (d : PyDate) : ℕ := d.year * 10000 + d.month * 100 + d.day

/-- Strict chronological sortedness of a date list, an executable check
whose truth implies `Nodup`. -/
def sortedByKey : List PyDate → Bool
  | [] => true
  | [_] => true
  | a :: b :: rest => decide (dateKey a < dateKey b) && sortedByKey (b :: rest)

/-- Executable per-year calendar facts: exactly 180 school days, listed in
strictly increasing order. -/
def calendarOk (y : ℕ) : Bool :=
  ((get_school_days y).length == 180) && sortedByKey (get_school_days y)

/-! ### Attendance (`_generate_attendance`)

`scripts/complete_decade_generator.py` lines 1409-1450 and the identical
`scripts/decade_generator.py` lines 922-964. -/

/-- `absence_count = int(total_days * 0.05)`: at day counts of this size
the float product truncates exactly like the rational one. -/
def absence_count (total_days : ℕ) : ℕ := total_days * 5 / 100

/-- `tardy_count = int(total_days * 0.03)` (3% of the **total** school
days, not of the non-absent days). -/
def tardy_count (total_days : ℕ) : ℕ := total_days * 3 / 100

/-- `remaining_days = [day for day in school_days if day not in absence_days]`. -/
def remaining_days (school_days absence_days : List PyDate) : List PyDate :=
  school_days.filter (fun d => decide (d ∉ absence_days))

/-- What `random.sample(pop, k)` returns: a length-`k` duplicate-free
list of elements of `pop`. -/
def IsSample (pop s : List PyDate) (k : ℕ) : Prop :=
  s.length = k ∧ s.Nodup ∧ ∀ d ∈ s, d ∈ pop

instance (pop s : List PyDate) (k : ℕ) : Decidable (IsSample pop s k) := by
  unfold IsSample
  infer_instance

/-- The status written for one day by `_generate_attendance`:
`random.choice(["Absent", "Excused"])` for an absence day (`coin` is the
uniform index draw of `random.choice`), `"Tardy"` for a tardy day,
`"Present"` otherwise. -/
def attendance_status (absence_days tardy_days : List PyDate)
    (coin : PyDate → Fin 2) (day : PyDate) : String :=
  if day ∈ absence_days then (["Absent", "Excused"] : List String).get (coin day)
  else if day ∈ tardy_days then "Tardy" else "Present"

/-! ### Student registry (`StudentRegistry`)

`scripts/complete_decade_generator.py` lines 47-155.  A student dict is
modelled by the fields the claims touch (ids, grade level, enrollment
year, family); names, gender and birth dates are payload the claims never
mention.  The `active_students` dict (int key = `student_id`, insertion
ordered) is modelled as a list of students with distinct ids, and a dict
store `self.active_students[key] = student` as replace-if-present /
append-if-fresh.  The Python family id `f"FAM{n//3}"` is modelled by the
number `n / 3`. -/

/-- One student record. -/
structure Student where
  student_id : ℕ
  grade_level_id : ℕ
  enrollment_year : ℕ
  family_id : ℕ
deriving DecidableEq, Repr

/-- The registry state: active students, graduated students (with their
`graduation_year` stamp), and the fresh-id counter. -/
structure StudentRegistry where
  active_students : List Student
  graduated_students : List (Student × ℕ)
  student_id_counter : ℕ
deriving DecidableEq, Repr

/-- `self.active_students[student_id] = student` (dict assignment). -/
def insertActiveStudent (l : List Student) (s : Student) : List Student :=
  if l.any (fun t => t.student_id == s.student_id) then
    l.map (fun t => if t.student_id == s.student_id then s else t)
  else l ++ [s]

/-- `StudentRegistry.advance_grade_levels(year)` (lines 76-98): iterate
the active snapshot; a student with `grade_level_id >= 13` is appended to
the graduated archive stamped with `year` and deleted from the dict, any
other student's grade is incremented in place.  The resulting dict (in
insertion order) is the non-graduates with incremented grades; the
returned `(graduated, advanced)` lists are in iteration order. -/
def advance_grade_levels (reg : StudentRegistry) (year : ℕ) :
    StudentRegistry × List Student × List Student :=
  let graduated := reg.active_students.filter (fun s => decide (13 ≤ s.grade_level_id))
  let advanced :=
    (reg.active_students.filter (fun s => !decide (13 ≤ s.grade_level_id))).map
      (fun s => { s with grade_level_id := s.grade_level_id + 1 })
  ({ reg with
      active_students := advanced,
      graduated_students := reg.graduated_students ++ graduated.map (fun s => (s, year)) },
    graduated, advanced)

/-- The random draws consumed by `enroll_new_kindergarteners` for the
`i`-th new student: the `random.random() < 0.20` sibling coin and the
`random.choice(existing_families)` index (taken mod the list length).
Name, gender and birth-date draws are payload the claims never mention. -/
structure EnrollDraws where
  sibling : ℕ → Bool
  famPick : ℕ → ℕ

/-- The loop body of `enroll_new_kindergarteners` (lines 100-155),
recursing on the remaining count `k` with `i` the index of the next new
student: each iteration builds a kindergartener (`grade_level_id = 1`)
with id `student_id_counter`, whose family is an existing family when the
sibling coin fires and the dict is non-empty, else `FAM{counter//3}`,
stores it in the dict and increments the counter. -/
def enrollAux (year : ℕ) (dr : EnrollDraws) :
    ℕ → ℕ → StudentRegistry → List Student → StudentRegistry × List Student
  | 0, _, reg, acc => (reg, acc)
  | k + 1, i, reg, acc =>
    let existing := reg.active_students.map (fun s => s.family_id)
    let family_id :=
      if dr.sibling i && !existing.isEmpty then
        existing.getD (dr.famPick i % existing.length) 0
      else reg.student_id_counter / 3
    let s : Student :=
      { student_id := reg.student_id_counter, grade_level_id := 1,
        enrollment_year := year, family_id := family_id }
    enrollAux year dr k (i + 1)
      { reg with
          active_students := insertActiveStudent reg.active_students s,
          student_id_counter := reg.student_id_counter + 1 }
      (acc ++ [s])

/-- `StudentRegistry.enroll_new_kindergarteners(year, count)`: returns
the updated registry and the list of new students. -/
def enroll_new_kindergarteners (reg : StudentRegistry) (year count : ℕ)
    (dr : EnrollDraws) : StudentRegistry × List Student :=
  enrollAux year dr count 0 reg []

/-- Concrete baseline for the end-to-end scenario of C5: 500 active
students, ids 1-500, grades cycling 1..13 (so 38 students at grade 13 and
38 at grade 12), counter 501. -/
def c5Students : List Student :=
  (List.range 500).map
    (fun i => { student_id := i + 1, grade_level_id := i % 13 + 1,
                enrollment_year := 2015, family_id := (i + 1) / 3 })

/-- The C5 baseline registry. -/
def c5Reg : StudentRegistry :=
  { active_students := c5Students, graduated_students := [], student_id_counter := 501 }

/-- Concrete draws for the C5 scenario: no sibling coin ever fires. -/
def c5Draws : EnrollDraws := { sibling := fun _ => false, famPick := fun _ => 0 }

/-- Small registry used to witness C4: one graduating senior and one
fifth-grader. -/
def c4Reg : StudentRegistry :=
  { active_students := [⟨1, 13, 2015, 0⟩, ⟨2, 5, 2015, 0⟩],
    graduated_students := [], student_id_counter := 3 }

/-! ### Teacher registry (`TeacherRegistry.process_annual_changes`)

`scripts/complete_decade_generator.py` lines 255-327.  A teacher dict is
modelled by the fields the claim touches; names and position level are
payload.  The `active_teachers` dict is a list of teachers with distinct
ids, and `sort(key=..., reverse=True)` is modelled by Mathlib's stable
`insertionSort` under experience-descending order (which, like Python's
stable sort, keeps the original order of equally experienced teachers —
and none of the proved properties depends on how ties are broken). -/

/-- One teacher record. -/
structure Teacher where
  teacher_id : ℕ
  department_id : ℕ
  hire_year : ℕ
  years_experience : ℕ
deriving DecidableEq, Repr

/-- The registry state: active teachers, the retirement and
resignation archives (stamped with the departure year), and the
fresh-id counter. -/
structure TeacherRegistry where
  active_teachers : List Teacher
  retired_teachers : List (Teacher × ℕ)
  former_teachers : List (Teacher × ℕ)
  teacher_id_counter : ℕ
deriving DecidableEq, Repr

/-- The random draws of `process_annual_changes`: the
`random.random() < 0.3` retirement coin for the `i`-th departure, and the
weighted `random.choices(departments)` pick and `random.randint(0, 5)`
experience for the `i`-th hire (the department weighting only selects
which department id the draw returns, so the draw itself is the model). -/
structure TeacherDraws where
  retire : ℕ → Bool
  dept : ℕ → ℕ
  exp : ℕ → ℕ

/-- `departure_candidates.sort(key=lambda t: t["years_experience"], reverse=True)`. -/
def sortByExpDesc (l : List Teacher) : List Teacher :=
  l.insertionSort (fun a b => b.years_experience ≤ a.years_experience)

/-- `int(current_count * turnover_rate)` (float truncation; the rates
used are non-negative, where truncation is the floor). -/
def expectedDepartures (st : TeacherRegistry) (rate : ℚ) : ℕ :=
  (Int.floor ((st.active_teachers.length : ℚ) * rate)).toNat

/-- `departure_candidates[i] for i in range(min(expected_departures,
len(departure_candidates)))`: the teachers who leave. -/
def departedList (st : TeacherRegistry) (rate : ℚ) : List Teacher :=
  (sortByExpDesc st.active_teachers).take
    (min (expectedDepartures st rate) (sortByExpDesc st.active_teachers).length)

/-- One iteration of the departure loop: teacher `it.2` (the `it.1`-th
departure) retires when `years_experience >= 25 or random() < 0.3`, else
resigns; either way their entry is deleted from the active dict.  The
accumulator is (active teachers, retirements, resignations). -/
def teacherStep (dr : TeacherDraws)
    (acc : List Teacher × List Teacher × List Teacher) (it : ℕ × Teacher) :
    List Teacher × List Teacher × List Teacher :=
  if 25 ≤ it.2.years_experience || dr.retire it.1 then
    (acc.1.filter (fun x => x.teacher_id != it.2.teacher_id), acc.2.1 ++ [it.2], acc.2.2)
  else
    (acc.1.filter (fun x => x.teacher_id != it.2.teacher_id), acc.2.1, acc.2.2 ++ [it.2])

/-- The departure loop, `i` being the index of the next departure. -/
def departLoop (dr : TeacherDraws) :
    ℕ → List Teacher → (List Teacher × List Teacher × List Teacher) →
      List Teacher × List Teacher × List Teacher
  | _, [], acc => acc
  | i, t :: rest, acc => departLoop dr (i + 1) rest (teacherStep dr acc (i, t))

/-- The state after all departures of a year. -/
def departResult (st : TeacherRegistry) (rate : ℚ) (dr : TeacherDraws) :
    List Teacher × List Teacher × List Teacher :=
  departLoop dr 0 (departedList st rate) (st.active_teachers, [], [])

/-- `TeacherRegistry.process_annual_changes(year, target_teacher_count,
turnover_rate)`: departures, then hires up to the target
(`new_hire_count = target - len(active)`, clamped at 0 by
`range(max(0, ...))`, here by truncated subtraction) with fresh ids from
the counter, then `years_experience += 1` for every active teacher.
Returns the new state and `(retirements, resignations, new_hires)`. -/
def process_annual_changes (st : TeacherRegistry) (year target_teacher_count : ℕ)
    (turnover_rate : ℚ) (dr : TeacherDraws) :
    TeacherRegistry × List Teacher × List Teacher × List Teacher :=
  let res := departResult st turnover_rate dr
  let new_hire_count := target_teacher_count - res.1.length
  let hires := (List.range new_hire_count).map
    (fun i => { teacher_id := st.teacher_id_counter + i, department_id := dr.dept i,
                hire_year := year, years_experience := dr.exp i : Teacher })
  ({ active_teachers := (res.1 ++ hires).map
        (fun t => { t with years_experience := t.years_experience + 1 }),
     retired_teachers := st.retired_teachers ++ res.2.1.map (fun t => (t, year)),
     former_teachers := st.former_teachers ++ res.2.2.map (fun t => (t, year)),
     teacher_id_counter := st.teacher_id_counter + new_hire_count },
   res.2.1, res.2.2, hires)

/-- Small registry used to witness C7: a 30-years-experience veteran and
a rookie. -/
def c7Reg : TeacherRegistry :=
  { active_teachers := [⟨1, 1, 2000, 30⟩, ⟨2, 2, 2018, 1⟩],
    retired_teachers := [], former_teachers := [], teacher_id_counter := 3 }

/-- Concrete draws for the C7 witness. -/
def c7Draws : TeacherDraws :=
  { retire := fun _ => true, dept := fun _ => 1, exp := fun _ => 2 }

/-! ### Guardian registry (`GuardianRegistry`)

`scripts/complete_decade_generator.py` lines 349-568.  The
`student_guardians` dict mixes Python key types: single-guardian
relationships are stored under the integer key `student_id`, while a
two-parent family stores its two rows under the string keys
`f"{student_id}_1"` and `f"{student_id}_2"`.  These three shapes are
pairwise distinct Python values across all students, which `SGKey`
captures; the dict itself is an insertion-ordered association list with
replace-on-existing-key semantics.  Guardian payload (names, email,
phone) is irrelevant to the claims, so an active guardian is represented
by its id.  The branch draws of the generator (`random.random() < 0.65`,
and the three-way split of `rand` at 0.60 / 0.95, and
`random.choice([5..10])`) are modelled by their outcomes, which loses no
reachable behaviour. -/

/-- A key of the `student_guardians` dict. -/
inductive SGKey where
  | int (sid : ℕ)
  | str1 (sid : ℕ)
  | str2 (sid : ℕ)
deriving DecidableEq, Repr

/-- One `student_guardians` relationship row. -/
structure SGRel where
  student_id : ℕ
  guardian_id : ℕ
  guardian_type_id : ℕ
  family_id : ℕ
deriving DecidableEq, Repr

/-- Python dict assignment `m[k] = v`: replace in place if the key
exists, else append. -/
def dictInsert (m : List (SGKey × SGRel)) (k : SGKey) (v : SGRel) :
    List (SGKey × SGRel) :=
  if m.any (fun p => p.1 == k) then
    m.map (fun p => if p.1 == k then (k, v) else p)
  else m ++ [(k, v)]

/-- Python `del m[k]`. -/
def dictErase (m : List (SGKey × SGRel)) (k : SGKey) : List (SGKey × SGRel) :=
  m.filter (fun p => p.1 != k)

/-- Python `k in m`. -/
def dictContains (m : List (SGKey × SGRel)) (k : SGKey) : Bool :=
  m.any (fun p => p.1 == k)

/-- The registry state: active guardian ids, the relationship dict, the
fresh-id counter, and the transferred-guardian archive. -/
structure GuardianRegistry where
  guardians : List ℕ
  student_guardians : List (SGKey × SGRel)
  guardian_id_counter : ℕ
  transferred_guardians : List ℕ
deriving DecidableEq, Repr

/-- The family-structure outcome of the `rand` three-way split:
`rand < 0.60` two parents, `rand < 0.95` single mother, else single
father. -/
inductive FamBranch where
  | twoParent
  | singleMother
  | singleFather
deriving DecidableEq, Repr

/-- The draws of `generate_guardians_for_students` for the `i`-th
student of the input list: the `random.random() < 0.65` shared-last-name
outcome, the family-structure branch, and the
`random.choice([5, 6, 7, 8, 9, 10])` non-parent guardian type. -/
structure GuardianDraws where
  shares : ℕ → Bool
  famType : ℕ → FamBranch
  gType : ℕ → ℕ

/-- The body of `generate_guardians_for_students` for one student
(lines 455-562): skip if the int key is present; else reuse the
guardians of any relationship with the same `family_id` (each reused row
being written to the same int key `student_id`, so only the last
survives in the dict); else create guardians according to the drawn
family structure (a two-parent family writes its rows under the string
keys `sid_1` / `sid_2`).  Returns the new registry, the ids of the
guardians created and the relationship rows appended to the output. -/
def genStudentGuardians (dr : GuardianDraws) (i : ℕ) (reg : GuardianRegistry)
    (s : Student) : GuardianRegistry × List ℕ × List SGRel :=
  if dictContains reg.student_guardians (SGKey.int s.student_id) then (reg, [], [])
  else
    let existing := (reg.student_guardians.map Prod.snd).filter
      (fun sg => sg.family_id == s.family_id)
    if !existing.isEmpty then
      let rels := existing.map
        (fun sg => { student_id := s.student_id, guardian_id := sg.guardian_id,
                     guardian_type_id := sg.guardian_type_id,
                     family_id := s.family_id : SGRel })
      ({ reg with
          student_guardians := rels.foldl
            (fun m r => dictInsert m (SGKey.int s.student_id) r)
            reg.student_guardians },
       [], rels)
    else if dr.shares i then
      match dr.famType i with
      | FamBranch.twoParent =>
        let c := reg.guardian_id_counter
        let motherRel := { student_id := s.student_id, guardian_id := c,
                           guardian_type_id := 1, family_id := s.family_id : SGRel }
        let fatherRel := { student_id := s.student_id, guardian_id := c + 1,
                           guardian_type_id := 2, family_id := s.family_id : SGRel }
        ({ reg with
            guardians := reg.guardians ++ [c, c + 1],
            student_guardians :=
              dictInsert (dictInsert reg.student_guardians
                (SGKey.str1 s.student_id) motherRel) (SGKey.str2 s.student_id) fatherRel,
            guardian_id_counter := c + 2 },
         [c, c + 1], [motherRel, fatherRel])
      | FamBranch.singleMother =>
        let c := reg.guardian_id_counter
        let rel := { student_id := s.student_id, guardian_id := c,
                     guardian_type_id := 1, family_id := s.family_id : SGRel }
        ({ reg with
            guardians := reg.guardians ++ [c],
            student_guardians := dictInsert reg.student_guardians
              (SGKey.int s.student_id) rel,
            guardian_id_counter := c + 1 },
         [c], [rel])
      | FamBranch.singleFather =>
        let c := reg.guardian_id_counter
        let rel := { student_id := s.student_id, guardian_id := c,
                     guardian_type_id := 2, family_id := s.family_id : SGRel }
        ({ reg with
            guardians := reg.guardians ++ [c],
            student_guardians := dictInsert reg.student_guardians
              (SGKey.int s.student_id) rel,
            guardian_id_counter := c + 1 },
         [c], [rel])
    else
      let c := reg.guardian_id_counter
      let rel := { student_id := s.student_id, guardian_id := c,
                   guardian_type_id := dr.gType i, family_id := s.family_id : SGRel }
      ({ reg with
          guardians := reg.guardians ++ [c],
          student_guardians := dictInsert reg.student_guardians
            (SGKey.int s.student_id) rel,
          guardian_id_counter := c + 1 },
       [c], [rel])

/-- The loop of `generate_guardians_for_students`, `i` the index of the
next student, accumulating the created guardian ids and relationship
rows. -/
def genGuardiansLoop (dr : GuardianDraws) :
    ℕ → List Student → GuardianRegistry → List ℕ → List SGRel →
      GuardianRegistry × List ℕ × List SGRel
  | _, [], reg, gacc, racc => (reg, gacc, racc)
  | i, s :: rest, reg, gacc, racc =>
    let r := genStudentGuardians dr i reg s
    genGuardiansLoop dr (i + 1) rest r.1 (gacc ++ r.2.1) (racc ++ r.2.2)

/-- `GuardianRegistry.generate_guardians_for_students(students)`. -/
def generate_guardians_for_students (reg : GuardianRegistry)
    (students : List Student) (dr : GuardianDraws) :
    GuardianRegistry × List ℕ × List SGRel :=
  genGuardiansLoop dr 0 students reg [] []

/-- The loop of `remove_student_guardians` (lines 358-388) over the
snapshot of the student's relationship rows: a guardian with no other
student's row is archived, and then the dict entry under the integer key
`student_id` is deleted if present (the string keys of two-parent rows
are never touched). -/
def removeLoop (sid : ℕ) : List SGRel → GuardianRegistry → GuardianRegistry
  | [], reg => reg
  | rel :: rest, reg =>
    let others := (reg.student_guardians.map Prod.snd).filter
      (fun sg => sg.guardian_id == rel.guardian_id && sg.student_id != sid)
    let reg1 :=
      if others.isEmpty then
        if reg.guardians.contains rel.guardian_id then
          { reg with
              guardians := reg.guardians.filter (fun g => g != rel.guardian_id),
              transferred_guardians :=
                reg.transferred_guardians ++ [rel.guardian_id] }
        else reg
      else reg
    let reg2 :=
      if dictContains reg1.student_guardians (SGKey.int sid) then
        { reg1 with
            student_guardians := dictErase reg1.student_guardians (SGKey.int sid) }
      else reg1
    removeLoop sid rest reg2

/-- `GuardianRegistry.remove_student_guardians(student_id)`. -/
def remove_student_guardians (reg : GuardianRegistry) (sid : ℕ) :
    GuardianRegistry :=
  removeLoop sid
    ((reg.student_guardians.map Prod.snd).filter (fun sg => sg.student_id == sid))
    reg

/-- The guardian ids related to a student in the registry's
`student_guardians` collection. -/
def guardianIdsOf (reg : GuardianRegistry) (sid : ℕ) : List ℕ :=
  ((reg.student_guardians.map Prod.snd).filter
    (fun sg => sg.student_id == sid)).map (fun sg => sg.guardian_id)

/-- Empty guardian registry (counter starts at 1, as in `__init__`). -/
def gReg0 : GuardianRegistry :=
  { guardians := [], student_guardians := [], guardian_id_counter := 1,
    transferred_guardians := [] }

/-- Two active siblings of family 7 for the C8 failing input. -/
def c8Students : List Student :=
  [{ student_id := 10, grade_level_id := 3, enrollment_year := 2015, family_id := 7 },
   { student_id := 11, grade_level_id := 5, enrollment_year := 2015, family_id := 7 }]

/-- Draws sending the first processed sibling to the two-parent branch. -/
def c8Draws : GuardianDraws :=
  { shares := fun _ => true, famType := fun _ => FamBranch.twoParent,
    gType := fun _ => 5 }

end Luminosity


namespace Luminosity

set_option maxRecDepth 100000
set_option maxHeartbeats 2000000

lemma pyRound_nonneg {x : ℚ} (hx : 0 ≤ x) : 0 ≤ pyRound x := by
  unfold pyRound
  have hf : (0 : ℤ) ≤ ⌊x⌋ := by
    exact_mod_cast Int.le_floor.2 (by exact_mod_cast hx)
  dsimp only
  split_ifs <;> omega

lemma pyRound_le_int {x : ℚ} {n : ℤ} (hx : x ≤ n) : pyRound x ≤ n := by
  have hf : ⌊x⌋ ≤ n := by
    have h := Int.floor_mono hx
    simpa using h
  have hstep : ¬ x - (⌊x⌋ : ℚ) < 1/2 → ⌊x⌋ + 1 ≤ n := by
    intro h
    have hflt : (⌊x⌋ : ℚ) < (n : ℚ) := by linarith
    have : ⌊x⌋ < n := by exact_mod_cast hflt
    omega
  unfold pyRound
  dsimp only
  split_ifs with h1 h2 h3
  · exact hf
  · exact hstep h1
  · exact hf
  · exact hstep h1

lemma realisticPercentage_nonneg (rand z : ℚ) {u : ℚ} (hu0 : 0 ≤ u) :
    0 ≤ realisticPercentage rand u z := by
  unfold realisticPercentage uniformDraw normalDraw
  split_ifs
  · nlinarith
  · nlinarith
  · have : (0:ℚ) ≤ 70/100 := by norm_num
    exact le_trans this (le_max_left _ _)

lemma realisticPercentage_le_one (rand z : ℚ) {u : ℚ} (hu1 : u ≤ 1) :
    realisticPercentage rand u z ≤ 1 := by
  unfold realisticPercentage uniformDraw normalDraw
  split_ifs
  · nlinarith
  · nlinarith
  · exact max_le (by norm_num) (min_le_left _ _)

/-- C1: for every call of the grade-score generator with a non-negative
integer `points_possible`, the score is `points_possible` times a
percentage drawn from the three-branch mixture (3% uniform on
[0.95, 1.0]; 5% uniform on [0.0, 0.69]; otherwise Normal(0.87, 0.08)
clamped to [0.70, 1.0]), rounded to an integer number of points: the
final `max(0, min(points_possible, ·))` clamp of the source never changes
the value. -/
theorem claim_C1 (pp : ℤ) (hpp : 0 ≤ pp) (rand z : ℚ) {u : ℚ}
    (hu0 : 0 ≤ u) (hu1 : u ≤ 1) :
    generate_realistic_grade pp rand u z = claimedMixtureScore pp rand u z := by
  unfold generate_realistic_grade claimedMixtureScore
  dsimp only
  have h0 : 0 ≤ realisticPercentage rand u z := realisticPercentage_nonneg rand z hu0
  have h1 : realisticPercentage rand u z ≤ 1 := realisticPercentage_le_one rand z hu1
  have hpq : (0 : ℚ) ≤ (pp : ℚ) := by exact_mod_cast hpp
  have hr0 : 0 ≤ pyRound ((pp : ℚ) * realisticPercentage rand u z) :=
    pyRound_nonneg (mul_nonneg hpq h0)
  have hrp : pyRound ((pp : ℚ) * realisticPercentage rand u z) ≤ pp :=
    pyRound_le_int (by nlinarith)
  rw [min_eq_right hrp, max_eq_right hr0]

/-- C1 witness: the theorem applied at `points_possible = 10`,
`rand = 1/2` (normal branch), `u = 1/2`, `z = 0`; the common value is
`round(10 × 0.87) = 9`. -/
theorem claim_C1_witness :
    generate_realistic_grade 10 (1/2) (1/2) 0 = claimedMixtureScore 10 (1/2) (1/2) 0 ∧
    claimedMixtureScore 10 (1/2) (1/2) 0 = 9 :=
  ⟨claim_C1 10 (by norm_num) (1/2) 0 (by norm_num) (by norm_num), by
    norm_num [claimedMixtureScore, realisticPercentage, uniformDraw, normalDraw,
      pyRound, max_def, min_def]⟩

/-- C2: for any non-negative `points_possible` and any values of the
random draws, the score emitted by `_generate_realistic_grade`
(complete_decade_generator.py) and by the per-row computation of
`generate_proper_grades` (grade_distribution_hotfix.py) lies in
`[0, points_possible]`: both end with
`max(0, min(points_possible, round(...)))`. -/
theorem claim_C2 (pp : ℤ) (hpp : 0 ≤ pp) (rand u z rand' u' z' : ℚ) :
    (0 ≤ generate_realistic_grade pp rand u z ∧
      generate_realistic_grade pp rand u z ≤ pp) ∧
    (0 ≤ generate_proper_grade pp rand' u' z' ∧
      generate_proper_grade pp rand' u' z' ≤ pp) := by
  unfold generate_realistic_grade generate_proper_grade
  refine ⟨⟨le_max_left 0 _, max_le hpp (min_le_left _ _)⟩,
          ⟨le_max_left 0 _, max_le hpp (min_le_left _ _)⟩⟩

/-- C2 witness: the bounds at `points_possible = 20` with concrete draws
(both generators land in the normal branch). -/
theorem claim_C2_witness :
    (0 ≤ generate_realistic_grade 20 (1/2) (1/2) 0 ∧
      generate_realistic_grade 20 (1/2) (1/2) 0 ≤ 20) ∧
    (0 ≤ generate_proper_grade 20 (1/2) (1/2) 0 ∧
      generate_proper_grade 20 (1/2) (1/2) 0 ≤ 20) :=
  claim_C2 20 (by norm_num) (1/2) (1/2) 0 (1/2) (1/2) 0

/-- C3: the grade-score mixture of `grade_distribution_hotfix.py`
(normal branch Normal(85, 5) on the percent scale, clamped to [70, 94])
and the one of `complete_decade_generator._generate_realistic_grade`
(normal branch Normal(0.87, 0.08), clamped to [0.70, 1.0]) disagree on an
identical sequence of underlying draws: with `points_possible = 100`,
branch selector `rand = 1/2` and standard-normal draw `z = 2`, the hotfix
scores 94 while the generator scores 100, so the two functions are not
extensionally equal. -/
theorem claim_C3 :
    generate_proper_grade 100 (1/2) (1/2) 2 ≠ generate_realistic_grade 100 (1/2) (1/2) 2 ∧
    generate_proper_grade 100 (1/2) (1/2) 2 = 94 ∧
    generate_realistic_grade 100 (1/2) (1/2) 2 = 100 := by
  have h1 : generate_proper_grade 100 (1/2) (1/2) 2 = 94 := by
    norm_num [generate_proper_grade, uniformDraw, normalDraw, pyRound, max_def, min_def]
  have h2 : generate_realistic_grade 100 (1/2) (1/2) 2 = 100 := by
    norm_num [generate_realistic_grade, realisticPercentage, uniformDraw, normalDraw,
      pyRound, max_def, min_def]
  exact ⟨by rw [h1, h2]; decide, h1, h2⟩

lemma sortedByKey_cons {a b : PyDate} {l : List PyDate}
    (h : sortedByKey (a :: b :: l) = true) :
    dateKey a < dateKey b ∧ sortedByKey (b :: l) = true := by
  simpa [sortedByKey] using h

lemma sortedByKey_all_lt {a : PyDate} {l : List PyDate}
    (h : sortedByKey (a :: l) = true) : ∀ b ∈ l, dateKey a < dateKey b := by
  induction l generalizing a with
  | nil => intro b hb; exact absurd hb (List.not_mem_nil b)
  | cons c t ih =>
    intro b hb
    obtain ⟨hac, hrest⟩ := sortedByKey_cons h
    rcases List.mem_cons.mp hb with rfl | hb'
    · exact hac
    · exact lt_trans hac (ih hrest b hb')

lemma sortedByKey_nodup : ∀ {l : List PyDate}, sortedByKey l = true → l.Nodup := by
  intro l
  induction l with
  | nil => intro _; exact List.nodup_nil
  | cons a t ih =>
    intro h
    have ht : sortedByKey t = true := by
      cases t with
      | nil => rfl
      | cons b r => exact (sortedByKey_cons h).2
    refine List.nodup_cons.mpr ⟨?_, ih ht⟩
    intro hmem
    exact absurd (sortedByKey_all_lt h a hmem) (lt_irrefl _)

/-- Checked calendar facts for the simulated years 2015-2025. -/
lemma calendar_checked : (List.range' 2015 11).all calendarOk = true := by decide

lemma calendarOk_of_year {y : ℕ} (h1 : 2015 ≤ y) (h2 : y ≤ 2025) :
    calendarOk y = true := by
  have hmem : y ∈ List.range' 2015 11 := by
    rw [List.mem_range']
    exact ⟨y - 2015, by omega, by omega⟩
  exact List.all_eq_true.mp calendar_checked y hmem

lemma school_days_length {y : ℕ} (h1 : 2015 ≤ y) (h2 : y ≤ 2025) :
    (get_school_days y).length = 180 := by
  have h := calendarOk_of_year h1 h2
  unfold calendarOk at h
  have h' := (Bool.and_eq_true _ _).mp h
  exact beq_iff_eq.mp h'.1

lemma school_days_nodup {y : ℕ} (h1 : 2015 ≤ y) (h2 : y ≤ 2025) :
    (get_school_days y).Nodup := by
  have h := calendarOk_of_year h1 h2
  unfold calendarOk at h
  exact sortedByKey_nodup ((Bool.and_eq_true _ _).mp h).2

lemma length_filter_not_mem (l s : List PyDate) :
    (l.filter (fun d => decide (d ∉ s))).length =
      l.length - (l.filter (fun d => decide (d ∈ s))).length := by
  have h := List.length_eq_length_filter_add (l := l) (fun d => decide (d ∈ s))
  have he : (l.filter (fun d => !decide (d ∈ s))).length =
      (l.filter (fun d => decide (d ∉ s))).length := by
    congr 1
    apply List.filter_congr
    intro d _
    by_cases hd : d ∈ s <;> simp [hd]
  omega

lemma length_filter_mem (l s : List PyDate) (hl : l.Nodup) (hs : s.Nodup)
    (hsub : ∀ d ∈ s, d ∈ l) :
    (l.filter (fun d => decide (d ∈ s))).length = s.length := by
  have h1 : (l.filter (fun d => decide (d ∈ s))).toFinset =
      l.toFinset ∩ s.toFinset := by
    ext d
    simp [List.mem_toFinset, List.mem_filter]
  have h2 : l.toFinset ∩ s.toFinset = s.toFinset := by
    apply Finset.inter_eq_right.mpr
    intro d hd
    rw [List.mem_toFinset] at hd ⊢
    exact hsub d hd
  have hnodup : (l.filter (fun d => decide (d ∈ s))).Nodup := hl.filter _
  calc (l.filter (fun d => decide (d ∈ s))).length
      = (l.filter (fun d => decide (d ∈ s))).toFinset.card :=
        (List.toFinset_card_of_nodup hnodup).symm
    _ = s.toFinset.card := by rw [h1, h2]
    _ = s.length := List.toFinset_card_of_nodup hs

/-- C6: in attendance generation, for every school year of the simulated
range (2015-2025, each of which has exactly 180 school days) and every
student, the absence-day sample has `int(0.05 × total_school_days)`
elements, the tardy-day sample has
`int(0.03 × (total_school_days − absence_count))` elements (the code
computes `int(0.03 × total_school_days)`, which takes the same value, 5,
at the 180-day calendars the generator produces), and the tardy days are
drawn from the non-absent school days only. -/
theorem claim_C6 (year : ℕ) (hy1 : 2015 ≤ year) (hy2 : year ≤ 2025)
    (absenceDays tardyDays : List PyDate)
    (habs : IsSample (get_school_days year) absenceDays
      (min (absence_count (get_school_days year).length)
        (get_school_days year).length))
    (htrd : IsSample (remaining_days (get_school_days year) absenceDays) tardyDays
      (min (tardy_count (get_school_days year).length)
        (remaining_days (get_school_days year) absenceDays).length)) :
    absenceDays.length = absence_count (get_school_days year).length ∧
    tardyDays.length =
      ((get_school_days year).length - absenceDays.length) * 3 / 100 ∧
    ∀ d ∈ tardyDays, d ∈ get_school_days year ∧ d ∉ absenceDays := by
  have hlen := school_days_length hy1 hy2
  have hnd := school_days_nodup hy1 hy2
  obtain ⟨hal, han, has⟩ := habs
  obtain ⟨htl, _, hts⟩ := htrd
  have habs9 : absenceDays.length = 9 := by
    rw [hal, hlen]
    norm_num [absence_count]
  have hrem : (remaining_days (get_school_days year) absenceDays).length = 171 := by
    unfold remaining_days
    rw [length_filter_not_mem, length_filter_mem _ _ hnd han has, habs9, hlen]
  have htrd5 : tardyDays.length = 5 := by
    rw [htl, hrem, hlen]
    norm_num [tardy_count]
  refine ⟨by rw [habs9, hlen]; norm_num [absence_count], ?_, ?_⟩
  · rw [htrd5, habs9, hlen]
  · intro d hd
    have hmem := hts d hd
    unfold remaining_days at hmem
    have h2 := List.mem_filter.mp hmem
    exact ⟨h2.1, by simpa using h2.2⟩

/-- C6 witness: the theorem applied to the year 2015 with the concrete
samples given by the first 9 school days and the first 5 remaining days. -/
theorem claim_C6_witness :
    ((get_school_days 2015).take 9).length =
      absence_count (get_school_days 2015).length ∧
    ((remaining_days (get_school_days 2015) ((get_school_days 2015).take 9)).take 5).length =
      ((get_school_days 2015).length - ((get_school_days 2015).take 9).length) * 3 / 100 ∧
    ∀ d ∈ (remaining_days (get_school_days 2015) ((get_school_days 2015).take 9)).take 5,
      d ∈ get_school_days 2015 ∧ d ∉ (get_school_days 2015).take 9 := by
  have hlen := school_days_length (y := 2015) (by norm_num) (by norm_num)
  have hnd := school_days_nodup (y := 2015) (by norm_num) (by norm_num)
  have hA9 : ((get_school_days 2015).take 9).length = 9 := by
    rw [List.length_take, hlen]
    norm_num
  have hAnd : ((get_school_days 2015).take 9).Nodup :=
    List.Nodup.sublist (List.take_sublist _ _) hnd
  have hAsub : ∀ d ∈ (get_school_days 2015).take 9, d ∈ get_school_days 2015 :=
    fun d hd => List.mem_of_mem_take hd
  have hrem : (remaining_days (get_school_days 2015) ((get_school_days 2015).take 9)).length = 171 := by
    unfold remaining_days
    rw [length_filter_not_mem, length_filter_mem _ _ hnd hAnd hAsub, hA9, hlen]
  refine claim_C6 2015 (by norm_num) (by norm_num) _ _ ⟨?_, hAnd, hAsub⟩
    ⟨?_, ?_, fun d hd => List.mem_of_mem_take hd⟩
  · rw [List.length_take, hlen]
    norm_num [absence_count]
  · rw [List.length_take, hrem, hlen]
    norm_num [tardy_count]
  · exact List.Nodup.sublist (List.take_sublist _ _) (List.Nodup.filter _ hnd)

lemma fin2_cases (a : Fin 2) : a = 0 ∨ a = 1 := by
  rcases a with ⟨v, hv⟩
  interval_cases v
  · exact Or.inl rfl
  · exact Or.inr rfl

/-- C10: every generated attendance status is one of `"Present"`,
`"Tardy"`, `"Absent"`, `"Excused"`; an absence day is labelled
`"Absent"` on one of the two equally likely draws of
`random.choice(["Absent", "Excused"])` and `"Excused"` on the other; and
over any day list the rows labelled `"Absent"` and those labelled
`"Excused"` together are exactly the sampled absence days, so counting
`status == "Absent"` sees only the `coin = 0` half of the 5% absence
sample. -/
theorem claim_C10 (days absenceDays tardyDays : List PyDate) (coin : PyDate → Fin 2) :
    (∀ d ∈ days, attendance_status absenceDays tardyDays coin d ∈
      (["Present", "Tardy", "Absent", "Excused"] : List String)) ∧
    (∀ d ∈ absenceDays,
      (attendance_status absenceDays tardyDays coin d = "Absent" ↔ coin d = 0) ∧
      (attendance_status absenceDays tardyDays coin d = "Excused" ↔ coin d = 1)) ∧
    (days.filter
        (fun d => decide (attendance_status absenceDays tardyDays coin d = "Absent"))).length +
      (days.filter
        (fun d => decide (attendance_status absenceDays tardyDays coin d = "Excused"))).length =
      (days.filter (fun d => decide (d ∈ absenceDays))).length := by
  have hget0 : (["Absent", "Excused"] : List String).get ((0 : Fin 2)) = "Absent" := rfl
  have hget1 : (["Absent", "Excused"] : List String).get ((1 : Fin 2)) = "Excused" := rfl
  refine ⟨?_, ?_, ?_⟩
  · intro d _
    unfold attendance_status
    split_ifs with h1 h2
    · rcases fin2_cases (coin d) with hc | hc <;> rw [hc] <;> simp
    · simp
    · simp
  · intro d hd
    unfold attendance_status
    rw [if_pos hd]
    rcases fin2_cases (coin d) with hc | hc
    · rw [hc, hget0]
      exact ⟨iff_of_true rfl rfl, iff_of_false (by decide) (by decide)⟩
    · rw [hc, hget1]
      exact ⟨iff_of_false (by decide) (by decide), iff_of_true rfl rfl⟩
  · induction days with
    | nil => rfl
    | cons a t ih =>
      simp only [List.filter_cons]
      by_cases ha : a ∈ absenceDays
      · rcases fin2_cases (coin a) with hc | hc
        · have hs : attendance_status absenceDays tardyDays coin a = "Absent" := by
            unfold attendance_status
            rw [if_pos ha, hc, hget0]
          simp only [hs, ha, decide_eq_true_eq, if_true]
          rw [if_neg (show ¬ ("Absent" : String) = "Excused" from by decide)]
          simp only [List.length_cons]
          omega
        · have hs : attendance_status absenceDays tardyDays coin a = "Excused" := by
            unfold attendance_status
            rw [if_pos ha, hc, hget1]
          simp only [hs, ha, decide_eq_true_eq, if_true]
          rw [if_neg (show ¬ ("Excused" : String) = "Absent" from by decide)]
          simp only [List.length_cons]
          omega
      · have hs : attendance_status absenceDays tardyDays coin a ≠ "Absent" ∧
            attendance_status absenceDays tardyDays coin a ≠ "Excused" := by
          unfold attendance_status
          rw [if_neg ha]
          split_ifs <;> exact ⟨by decide, by decide⟩
        simp only [decide_eq_true_eq]
        rw [if_neg hs.1, if_neg hs.2, if_neg ha]
        simpa using ih

/-- C10 witness: the counting conjunct of the theorem at a concrete
two-day calendar with one absence day and coin constantly 0. -/
theorem claim_C10_witness :
    (([⟨2015, 8, 26⟩, ⟨2015, 8, 27⟩] : List PyDate).filter
        (fun d => decide (attendance_status [⟨2015, 8, 26⟩] [] (fun _ => 0) d = "Absent"))).length +
      (([⟨2015, 8, 26⟩, ⟨2015, 8, 27⟩] : List PyDate).filter
        (fun d => decide (attendance_status [⟨2015, 8, 26⟩] [] (fun _ => 0) d = "Excused"))).length =
      (([⟨2015, 8, 26⟩, ⟨2015, 8, 27⟩] : List PyDate).filter
        (fun d => decide (d ∈ ([⟨2015, 8, 26⟩] : List PyDate)))).length :=
  (claim_C10 [⟨2015, 8, 26⟩, ⟨2015, 8, 27⟩] [⟨2015, 8, 26⟩] [] (fun _ => 0)).2.2


lemma student_id_inj {reg : StudentRegistry}
    (hnodup : (reg.active_students.map (fun s => s.student_id)).Nodup)
    {t s : Student} (ht : t ∈ reg.active_students) (hs : s ∈ reg.active_students)
    (heq : t.student_id = s.student_id) : t = s :=
  List.inj_on_of_nodup_map hnodup ht hs heq

/-- C4: `advance_grade_levels(year)` graduates (with stamp `year`) every
active student at grade 13 or above, removing them from the active set,
increments every other student's grade by exactly 1, and returns the
`(graduated, advanced)` lists; consequently any student present before
and after the call by the same id carries grade `+1`, and a grade-13
student's id is absent from the new active set. -/
theorem claim_C4 (reg : StudentRegistry) (year : ℕ)
    (hnodup : (reg.active_students.map (fun s => s.student_id)).Nodup) :
    ∀ s ∈ reg.active_students,
      (13 ≤ s.grade_level_id →
        s ∈ (advance_grade_levels reg year).2.1 ∧
        (s, year) ∈ (advance_grade_levels reg year).1.graduated_students ∧
        ∀ s' ∈ (advance_grade_levels reg year).1.active_students,
          s'.student_id ≠ s.student_id) ∧
      (s.grade_level_id < 13 →
        { s with grade_level_id := s.grade_level_id + 1 } ∈
          (advance_grade_levels reg year).1.active_students ∧
        { s with grade_level_id := s.grade_level_id + 1 } ∈
          (advance_grade_levels reg year).2.2) ∧
      ∀ s' ∈ (advance_grade_levels reg year).1.active_students,
        s'.student_id = s.student_id →
          s'.grade_level_id = s.grade_level_id + 1 := by
  intro s hs
  unfold advance_grade_levels
  dsimp only
  refine ⟨?_, ?_, ?_⟩
  · intro h13
    have hsf : s ∈ reg.active_students.filter
        (fun s => decide (13 ≤ s.grade_level_id)) :=
      List.mem_filter.mpr ⟨hs, by simpa using h13⟩
    refine ⟨hsf, List.mem_append_right _ (List.mem_map.mpr ⟨s, hsf, rfl⟩), ?_⟩
    intro s' hs' heq
    obtain ⟨t, ht, rfl⟩ := List.mem_map.mp hs'
    have htA := (List.mem_filter.mp ht).1
    have htg : ¬ 13 ≤ t.grade_level_id := by
      have h2 := (List.mem_filter.mp ht).2
      simpa using h2
    have hts : t = s := student_id_inj hnodup htA hs heq
    exact htg (hts ▸ h13)
  · intro hlt
    have hsf : s ∈ reg.active_students.filter
        (fun s => !decide (13 ≤ s.grade_level_id)) :=
      List.mem_filter.mpr ⟨hs, by simp; omega⟩
    exact ⟨List.mem_map.mpr ⟨s, hsf, rfl⟩, List.mem_map.mpr ⟨s, hsf, rfl⟩⟩
  · intro s' hs' heq
    obtain ⟨t, ht, rfl⟩ := List.mem_map.mp hs'
    have hts : t = s := student_id_inj hnodup (List.mem_filter.mp ht).1 hs heq
    subst hts
    rfl

/-- C4 witness: the theorem applied to the two-student registry `c4Reg`
in year 2016, instantiated at its two students: the grade-13 student
graduates (stamped 2016) and the grade-5 student reappears at grade 6 in
the active set and the advanced list. -/
theorem claim_C4_witness :
    (⟨1, 13, 2015, 0⟩ : Student) ∈ (advance_grade_levels c4Reg 2016).2.1 ∧
    ((⟨1, 13, 2015, 0⟩ : Student), 2016) ∈
      (advance_grade_levels c4Reg 2016).1.graduated_students ∧
    (⟨2, 6, 2015, 0⟩ : Student) ∈ (advance_grade_levels c4Reg 2016).1.active_students ∧
    (⟨2, 6, 2015, 0⟩ : Student) ∈ (advance_grade_levels c4Reg 2016).2.2 := by
  have h := claim_C4 c4Reg 2016 (by decide)
  have h1 := h ⟨1, 13, 2015, 0⟩ (by decide)
  have h2 := h ⟨2, 5, 2015, 0⟩ (by decide)
  have h13 := h1.1 (by decide)
  have h5 := h2.2.1 (by decide)
  exact ⟨h13.1, h13.2.1, h5.1, h5.2⟩

lemma enrollAux_active (year : ℕ) (dr : EnrollDraws) :
    ∀ (k i : ℕ) (reg : StudentRegistry) (acc : List Student),
      (∀ s ∈ reg.active_students, s.student_id < reg.student_id_counter) →
      ∃ news : List Student,
        (enrollAux year dr k i reg acc).1.active_students =
          reg.active_students ++ news ∧
        news.length = k ∧
        ∀ s ∈ news, reg.student_id_counter ≤ s.student_id := by
  intro k
  induction k with
  | zero =>
    intro i reg acc hfresh
    exact ⟨[], by simp [enrollAux], rfl, by simp⟩
  | succ k ih =>
    intro i reg acc hfresh
    simp only [enrollAux]
    set s0 : Student :=
      { student_id := reg.student_id_counter, grade_level_id := 1,
        enrollment_year := year,
        family_id :=
          if dr.sibling i && !(reg.active_students.map (fun s => s.family_id)).isEmpty then
            (reg.active_students.map (fun s => s.family_id)).getD
              (dr.famPick i % (reg.active_students.map (fun s => s.family_id)).length) 0
          else reg.student_id_counter / 3 } with hs0
    have hins : insertActiveStudent reg.active_students s0 =
        reg.active_students ++ [s0] := by
      unfold insertActiveStudent
      rw [if_neg]
      intro hany
      obtain ⟨t, htmem, hteq⟩ := List.any_eq_true.mp hany
      have hid : t.student_id = reg.student_id_counter := by simpa using hteq
      have hlt := hfresh t htmem
      omega
    have hfresh' :
        ∀ t ∈ insertActiveStudent reg.active_students s0,
          t.student_id < reg.student_id_counter + 1 := by
      intro t ht
      rw [hins] at ht
      rcases List.mem_append.mp ht with h | h
      · exact Nat.lt_succ_of_lt (hfresh t h)
      · have hts : t = s0 := by simpa using h
        rw [hts]
        exact Nat.lt_succ_self _
    obtain ⟨news, hnews, hlen, hge⟩ := ih (i + 1)
      { reg with
          active_students := insertActiveStudent reg.active_students s0,
          student_id_counter := reg.student_id_counter + 1 }
      (acc ++ [s0]) hfresh'
    refine ⟨s0 :: news, ?_, by simp [hlen], ?_⟩
    · rw [hnews]
      dsimp only
      rw [hins, List.append_assoc, List.singleton_append]
    · intro t ht
      rcases List.mem_cons.mp ht with rfl | h
      · exact Nat.le_refl _
      · exact Nat.le_of_succ_le (hge t h)

/-- C5 counterexample: on the concrete baseline `c5Reg` of 500 students
with grades cycling 1..13, running `advance_grade_levels 2016` and then
`enroll_new_kindergarteners 2016 42` leaves active students at
`grade_level == 13` (the 38 former 12th-graders, advanced to 13),
contradicting the claim that zero such students remain. -/
theorem claim_C5_counterexample :
    ((enroll_new_kindergarteners (advance_grade_levels c5Reg 2016).1 2016 42
          c5Draws).1.active_students.filter
        (fun s => decide (s.grade_level_id = 13))).length ≠ 0 := by decide

/-- C5 (amended): on any 500-student baseline with grades 1-13, distinct
ids below the counter, the two calls leave
`500 - (number of grade-13 students) + 42` active students, and no
student that was at grade 13 remains in the active set (students
advanced from grade 12 now sit at grade 13, which is why the original
"zero students with grade_level == 13 remain" phrasing fails). -/
theorem claim_C5_amended (reg : StudentRegistry) (year : ℕ) (dr : EnrollDraws)
    (hcount : reg.active_students.length = 500)
    (_hgrades : ∀ s ∈ reg.active_students,
      1 ≤ s.grade_level_id ∧ s.grade_level_id ≤ 13)
    (hnodup : (reg.active_students.map (fun s => s.student_id)).Nodup)
    (hfresh : ∀ s ∈ reg.active_students,
      s.student_id < reg.student_id_counter) :
    (enroll_new_kindergarteners (advance_grade_levels reg year).1 year 42
        dr).1.active_students.length =
      500 - (reg.active_students.filter
        (fun s => decide (13 ≤ s.grade_level_id))).length + 42 ∧
    ∀ s ∈ reg.active_students, 13 ≤ s.grade_level_id →
      ∀ s' ∈ (enroll_new_kindergarteners (advance_grade_levels reg year).1 year 42
          dr).1.active_students,
        s'.student_id ≠ s.student_id := by
  have hadv : (advance_grade_levels reg year).1.active_students =
      (reg.active_students.filter (fun s => !decide (13 ≤ s.grade_level_id))).map
        (fun s => { s with grade_level_id := s.grade_level_id + 1 }) := rfl
  have hadvc : (advance_grade_levels reg year).1.student_id_counter =
      reg.student_id_counter := rfl
  have hfresh1 : ∀ s ∈ (advance_grade_levels reg year).1.active_students,
      s.student_id < (advance_grade_levels reg year).1.student_id_counter := by
    intro s hs
    rw [hadv] at hs
    obtain ⟨t, ht, rfl⟩ := List.mem_map.mp hs
    rw [hadvc]
    exact hfresh t (List.mem_filter.mp ht).1
  obtain ⟨news, hact, hlen42, hge⟩ :=
    enrollAux_active year dr 42 0 (advance_grade_levels reg year).1 [] hfresh1
  have hsplit := List.length_eq_length_filter_add
    (l := reg.active_students) (fun s => decide (13 ≤ s.grade_level_id))
  have hle : (reg.active_students.filter
      (fun s => decide (13 ≤ s.grade_level_id))).length ≤ 500 := by
    rw [← hcount]
    exact List.length_filter_le _ _
  constructor
  · show (enrollAux year dr 42 0 (advance_grade_levels reg year).1
      []).1.active_students.length = _
    rw [hact, List.length_append, hadv, List.length_map, hlen42]
    omega
  · intro s hs h13 s' hs' heq
    have hs2 : s' ∈ (advance_grade_levels reg year).1.active_students ++ news := by
      rw [← hact]
      exact hs'
    rcases List.mem_append.mp hs2 with h | h
    · rw [hadv] at h
      obtain ⟨t, ht, rfl⟩ := List.mem_map.mp h
      have htg : ¬ 13 ≤ t.grade_level_id := by
        have h2 := (List.mem_filter.mp ht).2
        simpa using h2
      have hts : t = s := student_id_inj hnodup (List.mem_filter.mp ht).1 hs heq
      exact htg (hts ▸ h13)
    · have h1 := hge s' h
      rw [hadvc] at h1
      have h2 := hfresh s hs
      omega

/-- C5 amended witness: the amended theorem applied to the concrete
baseline `c5Reg` (500 students, grades cycling 1-13, 38 of them at grade
13) with the draws `c5Draws`. -/
theorem claim_C5_amended_witness :
    (enroll_new_kindergarteners (advance_grade_levels c5Reg 2016).1 2016 42
        c5Draws).1.active_students.length =
      500 - (c5Reg.active_students.filter
        (fun s => decide (13 ≤ s.grade_level_id))).length + 42 ∧
    ∀ s ∈ c5Reg.active_students, 13 ≤ s.grade_level_id →
      ∀ s' ∈ (enroll_new_kindergarteners (advance_grade_levels c5Reg 2016).1 2016 42
          c5Draws).1.active_students,
        s'.student_id ≠ s.student_id := by
  have hids : c5Reg.active_students.map (fun s => s.student_id) =
      (List.range 500).map (fun i => i + 1) := by
    show c5Students.map (fun s => s.student_id) = _
    rw [c5Students, List.map_map]
    rfl
  refine claim_C5_amended c5Reg 2016 c5Draws rfl ?_ ?_ ?_
  · intro s hs
    obtain ⟨i, _, rfl⟩ := List.mem_map.mp hs
    refine ⟨by simp, ?_⟩
    show i % 13 + 1 ≤ 13
    omega
  · rw [hids]
    exact List.Nodup.map (fun a b h => by omega) (List.nodup_range 500)
  · intro s hs
    obtain ⟨i, hi, rfl⟩ := List.mem_map.mp hs
    show i + 1 < 501
    rw [List.mem_range] at hi
    omega


lemma departLoop_fst (dr : TeacherDraws) :
    ∀ (ds : List Teacher) (i : ℕ) (acc : List Teacher × List Teacher × List Teacher),
      (departLoop dr i ds acc).1 =
        acc.1.filter
          (fun x => decide (x.teacher_id ∉ ds.map (fun t => t.teacher_id))) := by
  intro ds
  induction ds with
  | nil =>
    intro i acc
    simp [departLoop]
  | cons d rest ih =>
    intro i acc
    simp only [departLoop]
    rw [ih]
    have h1 : (teacherStep dr acc (i, d)).1 =
        acc.1.filter (fun x => x.teacher_id != d.teacher_id) := by
      unfold teacherStep
      split_ifs <;> rfl
    rw [h1, List.filter_filter]
    apply List.filter_congr
    intro x _
    by_cases h2 : x.teacher_id = d.teacher_id <;>
      by_cases h3 : x.teacher_id ∈ rest.map (fun t => t.teacher_id) <;>
        simp [h2, h3]

lemma sortByExpDesc_perm (l : List Teacher) : (sortByExpDesc l).Perm l :=
  List.perm_insertionSort _ l

lemma filter_not_take_ids (a : List Teacher) (k : ℕ)
    (hnodup : (a.map (fun t => t.teacher_id)).Nodup) :
    (a.filter (fun x => decide (x.teacher_id ∉
        ((sortByExpDesc a).take k).map (fun t => t.teacher_id)))).length =
      a.length - k ∨ k > a.length := by
  by_cases hk : k ≤ a.length
  case neg => exact Or.inr (by omega)
  case pos =>
  left
  have hperm : (sortByExpDesc a).Perm a := sortByExpDesc_perm a
  have hndsrt : ((sortByExpDesc a).map (fun t => t.teacher_id)).Nodup :=
    ((hperm.map (fun t => t.teacher_id)).nodup_iff).mpr hnodup
  set p : Teacher → Bool := fun x => decide (x.teacher_id ∉
    ((sortByExpDesc a).take k).map (fun t => t.teacher_id)) with hp
  have hlenp : (a.filter p).length = ((sortByExpDesc a).filter p).length :=
    ((hperm.filter p).length_eq).symm
  have hdisj : (((sortByExpDesc a).take k).map (fun t => t.teacher_id)).Disjoint
      (((sortByExpDesc a).drop k).map (fun t => t.teacher_id)) := by
    have hsplitmap : ((sortByExpDesc a).map (fun t => t.teacher_id)) =
        ((sortByExpDesc a).take k).map (fun t => t.teacher_id) ++
          ((sortByExpDesc a).drop k).map (fun t => t.teacher_id) := by
      rw [← List.map_append, List.take_append_drop]
    rw [hsplitmap] at hndsrt
    exact (List.nodup_append.mp hndsrt).2.2
  have h1 : ((sortByExpDesc a).take k).filter p = [] := by
    apply List.filter_eq_nil_iff.mpr
    intro x hx
    rw [hp]
    simp only [decide_eq_true_eq, not_not]
    exact List.mem_map.mpr ⟨x, hx, rfl⟩
  have h2 : ((sortByExpDesc a).drop k).filter p = (sortByExpDesc a).drop k := by
    apply List.filter_eq_self.mpr
    intro x hx
    rw [hp]
    simp only [decide_eq_true_eq]
    intro hmem
    exact hdisj hmem (List.mem_map.mpr ⟨x, hx, rfl⟩)
  calc (a.filter p).length
      = ((sortByExpDesc a).filter p).length := hlenp
    _ = (((sortByExpDesc a).take k ++ (sortByExpDesc a).drop k).filter p).length := by
        rw [List.take_append_drop]
    _ = (((sortByExpDesc a).take k).filter p ++
          ((sortByExpDesc a).drop k).filter p).length := by
        rw [List.filter_append]
    _ = ((sortByExpDesc a).drop k).length := by rw [h1, h2, List.nil_append]
    _ = a.length - k := by rw [List.length_drop, hperm.length_eq]

lemma teacher_id_inj {a : List Teacher}
    (hnodup : (a.map (fun t => t.teacher_id)).Nodup)
    {t s : Teacher} (ht : t ∈ a) (hs : s ∈ a)
    (heq : t.teacher_id = s.teacher_id) : t = s :=
  List.inj_on_of_nodup_map hnodup ht hs heq

/-- C7: after `process_annual_changes(year, target_count, turnover_rate)`,
whenever the active count remaining after the
`int(active_count * turnover_rate)` departures is at most `target_count`,
the final active count is exactly `target_count`; and every teacher who
was active before the call and is still active after it (same id) has
`years_experience` incremented by exactly 1. -/
theorem claim_C7 (st : TeacherRegistry) (year target : ℕ) (rate : ℚ)
    (dr : TeacherDraws)
    (hnodup : (st.active_teachers.map (fun t => t.teacher_id)).Nodup)
    (hfresh : ∀ t ∈ st.active_teachers, t.teacher_id < st.teacher_id_counter)
    (hroom : st.active_teachers.length -
        min (expectedDepartures st rate) st.active_teachers.length ≤ target) :
    (process_annual_changes st year target rate dr).1.active_teachers.length =
      target ∧
    ∀ t ∈ st.active_teachers,
      ∀ t' ∈ (process_annual_changes st year target rate dr).1.active_teachers,
        t'.teacher_id = t.teacher_id →
          t'.years_experience = t.years_experience + 1 := by
  have hsortlen : (sortByExpDesc st.active_teachers).length =
      st.active_teachers.length := (sortByExpDesc_perm st.active_teachers).length_eq
  set k := min (expectedDepartures st rate) (sortByExpDesc st.active_teachers).length
    with hkdef
  have hk : k ≤ st.active_teachers.length := by
    rw [hkdef, hsortlen]
    exact min_le_right _ _
  have hsurv : (departResult st rate dr).1 =
      st.active_teachers.filter (fun x => decide (x.teacher_id ∉
        (departedList st rate).map (fun t => t.teacher_id))) := by
    unfold departResult
    rw [departLoop_fst]
  have hslen : (departResult st rate dr).1.length =
      st.active_teachers.length - k := by
    rw [hsurv]
    unfold departedList
    rw [← hkdef]
    rcases filter_not_take_ids st.active_teachers k hnodup with h | h
    · exact h
    · omega
  have hact : (process_annual_changes st year target rate dr).1.active_teachers =
      ((departResult st rate dr).1 ++
        (List.range (target - (departResult st rate dr).1.length)).map
          (fun i => { teacher_id := st.teacher_id_counter + i,
                      department_id := dr.dept i, hire_year := year,
                      years_experience := dr.exp i : Teacher })).map
        (fun t => { t with years_experience := t.years_experience + 1 }) := rfl
  constructor
  · rw [hact, List.length_map, List.length_append, List.length_map,
      List.length_range, hslen]
    rw [hkdef, hsortlen] at *
    omega
  · intro t ht t' ht' heq
    rw [hact] at ht'
    obtain ⟨u, hu, rfl⟩ := List.mem_map.mp ht'
    rcases List.mem_append.mp hu with h | h
    · rw [hsurv] at h
      have huA := (List.mem_filter.mp h).1
      have hut : u = t := teacher_id_inj hnodup huA ht heq
      subst hut
      rfl
    · obtain ⟨i, _, rfl⟩ := List.mem_map.mp h
      have h2 : st.teacher_id_counter + i = t.teacher_id := heq
      have h3 := hfresh t ht
      omega

/-- C7 witness: the theorem applied to the two-teacher registry `c7Reg`
with `target_count = 3` and `turnover_rate = 1/2` (one departure, two
hires). -/
theorem claim_C7_witness :
    (process_annual_changes c7Reg 2020 3 (1/2) c7Draws).1.active_teachers.length =
      3 ∧
    ∀ t ∈ c7Reg.active_teachers,
      ∀ t' ∈ (process_annual_changes c7Reg 2020 3 (1/2) c7Draws).1.active_teachers,
        t'.teacher_id = t.teacher_id →
          t'.years_experience = t.years_experience + 1 :=
  claim_C7 c7Reg 2020 3 (1/2) c7Draws (by decide) (by decide)
    (by norm_num [expectedDepartures, c7Reg])

/-- C8 (code bug): processing two siblings of family 7, the first drawn
a two-parent family, leaves the first sibling related to guardians
{1, 2} but the second related only to {2} in the registry's
`student_guardians` collection: the sibling-reuse loop writes every
reused relationship to the same dict key `student_id`, so only the last
(the father's) survives, violating the guardian-sharing invariant the
loop is commented to implement. -/
theorem claim_C8_code_bug :
    guardianIdsOf (generate_guardians_for_students gReg0 c8Students c8Draws).1 10 =
      [1, 2] ∧
    guardianIdsOf (generate_guardians_for_students gReg0 c8Students c8Draws).1 11 =
      [2] := by decide

/-- C9 (code bug): after generating a two-parent family for student 10
and calling `remove_student_guardians(10)`, both relationship rows of
student 10 are still in the registry (the deletion only ever targets the
integer dict key `student_id`, but two-parent rows live under the string
keys `"10_1"` / `"10_2"`), even though both guardians were archived
(moved from the active set to the transferred archive). -/
theorem claim_C9_code_bug :
    guardianIdsOf (remove_student_guardians
        (generate_guardians_for_students gReg0 (c8Students.take 1) c8Draws).1 10) 10 =
      [1, 2] ∧
    (remove_student_guardians
        (generate_guardians_for_students gReg0 (c8Students.take 1) c8Draws).1
        10).guardians = [] ∧
    (remove_student_guardians
        (generate_guardians_for_students gReg0 (c8Students.take 1) c8Draws).1
        10).transferred_guardians = [1, 2] := by decide

end Luminosity
